import Mathlib

/-!
Shallow embedding of `src/core/templates/services/auth.service.ts` (Oppia).

The file defines three authentication strategy implementations
(`NullAuthServiceImpl`, `DevAuthServiceImpl`, `ProdAuthServiceImpl`) and a
facade `AuthService` that selects one of them at construction and coordinates
with the backend session service (`AuthBackendApiService`).

External collaborators (AngularFireAuth, the backend API, the operator
prompt, the md5 hash from hash-wasm) are modelled as explicit parameters:
each asynchronous call is embedded as its settled outcome
(`Except AuthError A`), and functions additionally return the list of
observable calls they make (`List Event`) so that call-counting properties
can be stated. A promise that may never settle is embedded as
`Option (Except AuthError A)`, with `none` meaning the promise never
resolves nor rejects.
-/

namespace OppiaAuth

/-- The configuration constants read by the service, from `app.constants`
(`AppConstants.FIREBASE_AUTH_ENABLED`, `AppConstants.EMULATOR_MODE`, and the
six `FIREBASE_CONFIG_*` identity-provider constants). The claims quantify
over every configuration, so the constants are a structure rather than
fixed literals. -/
structure AppConstants where
  FIREBASE_AUTH_ENABLED : Bool
  EMULATOR_MODE : Bool
  FIREBASE_CONFIG_API_KEY : String
  FIREBASE_CONFIG_AUTH_DOMAIN : String
  FIREBASE_CONFIG_PROJECT_ID : String
  FIREBASE_CONFIG_STORAGE_BUCKET : String
  FIREBASE_CONFIG_MESSAGING_SENDER_ID : String
  FIREBASE_CONFIG_APP_ID : String
deriving DecidableEq

/-- Values a rejected promise can carry in this service:
`jsError m` is a plain `new Error(m)`; `firebaseError c` is a provider
error object whose `code` property is the string `c`; `nullValue` is the
literal `null` used by `Promise.reject(null)` in
`handleRedirectResultAsync`. -/
inductive AuthError where
  | jsError (message : String) : AuthError
  | firebaseError (code : String) : AuthError
  | nullValue : AuthError
deriving DecidableEq

/-- The `code` property read by `err.code === 'auth/user-not-found'`:
present only on provider error objects, `undefined` (here `none`)
otherwise. -/
def AuthError.code : AuthError → Option String
  | .firebaseError c => some c
  | _ => none

/-- The error `new Error('AngularFireAuth is not available')` thrown by every
`NullAuthServiceImpl` operation; the spec names this kind
`AuthUnavailable`. -/
def authUnavailable : AuthError :=
  .jsError "AngularFireAuth is not available"

/-- A signed-in firebase user, as consumed by `handleRedirectResultAsync`:
the only thing read from it is the settled outcome of `user.getIdToken()`. -/
structure FirebaseUser where
  getIdToken : Except AuthError String

/-- Embeds `firebase.auth.UserCredential`: carries a possibly-null `user`. -/
structure UserCredential where
  user : Option FirebaseUser

/-- Observable calls made to external collaborators during a run. -/
inductive Event where
  | promptForEmail : Event
  | signInWithEmailAndPassword (email password : String) : Event
  | createUserWithEmailAndPassword (email password : String) : Event
  | strategySignOut : Event
  | beginSession (idToken : String) : Event
  | endSession : Event
deriving DecidableEq

/-- Whether an event is an account-creation call, with any arguments. -/
def Event.isCreateUser : Event → Bool
  | .createUserWithEmailAndPassword _ _ => true
  | _ => false

/-- Whether an event is a call to the backend begin-session operation. -/
def Event.isBeginSession : Event → Bool
  | .beginSession _ => true
  | _ => false

/-- The password argument of an identity-provider credential call, if the
event is one. -/
def Event.passwordArg : Event → Option String
  | .signInWithEmailAndPassword _ p => some p
  | .createUserWithEmailAndPassword _ p => some p
  | _ => none

/-- The `AngularFireAuth` collaborator, embedded as the settled outcomes of
the calls the service can make on it. -/
structure AngularFireAuth where
  signInWithEmailAndPassword : String → String → Except AuthError UserCredential
  createUserWithEmailAndPassword : String → String → Except AuthError UserCredential
  getRedirectResult : Except AuthError UserCredential
  signOut : Except AuthError Unit

namespace NullAuthServiceImpl

/-- Embeds `NullAuthServiceImpl.signInWithRedirectAsync`: an `async` method whose
body throws `this.error`, hence a promise rejected with it (an `async`
body never throws synchronously). -/
def signInWithRedirectAsync : Except AuthError Unit :=
  .error authUnavailable

/-- Embeds `NullAuthServiceImpl.getRedirectResultAsync`: rejects with the same
error. -/
def getRedirectResultAsync : Except AuthError UserCredential :=
  .error authUnavailable

/-- Embeds `NullAuthServiceImpl.signOutAsync`: rejects with the same error. -/
def signOutAsync : Except AuthError Unit :=
  .error authUnavailable

end NullAuthServiceImpl

namespace DevAuthServiceImpl

/-- Embeds `DevAuthServiceImpl.signInWithRedirectAsync`: empty `async` body, a
no-op success. -/
def signInWithRedirectAsync : Except AuthError Unit :=
  .ok ()

/-- Embeds `DevAuthServiceImpl.getRedirectResultAsync`. Parameters stand for the
external collaborators: `md5` is the hash function from hash-wasm, `fa` the
AngularFireAuth instance, and `email` the string returned by the operator
`prompt`. Returns the settled outcome together with the trace of external
calls, in call order. -/
def getRedirectResultAsync (md5 : String → String) (fa : AngularFireAuth)
    (email : String) : Except AuthError UserCredential × List Event :=
  let password := md5 email
  match fa.signInWithEmailAndPassword email password with
  | .ok creds =>
      (.ok creds,
       [.promptForEmail, .signInWithEmailAndPassword email password])
  | .error err =>
      if err.code = some "auth/user-not-found" then
        (fa.createUserWithEmailAndPassword email password,
         [.promptForEmail, .signInWithEmailAndPassword email password,
          .createUserWithEmailAndPassword email password])
      else
        (.error err,
         [.promptForEmail, .signInWithEmailAndPassword email password])

/-- Embeds `DevAuthServiceImpl.signOutAsync`: delegates to
`angularFireAuth.signOut()`. -/
def signOutAsync (fa : AngularFireAuth) : Except AuthError Unit :=
  fa.signOut

end DevAuthServiceImpl

namespace ProdAuthServiceImpl

/-- The google provider built in the `ProdAuthServiceImpl` constructor. -/
structure GoogleAuthProvider where
  scopes : List String
  customParameters : List (String × String)
deriving DecidableEq

/-- The provider configured at construction: email scope added and the
account chooser forced. -/
def provider : GoogleAuthProvider :=
  { scopes := ["email"], customParameters := [("prompt", "select_account")] }

/-- Modelled from the spec: the outcome of the underlying
`angularFireAuth.signInWithRedirect(provider)` call is not in the
repository (it is an SDK call). Per the spec, the redirect navigates the
page away before the call can settle, so its promise never resolves nor
rejects: `none`. -/
def angularFireSignInWithRedirect : Option (Except AuthError Unit) :=
  none

/-- Embeds `ProdAuthServiceImpl.signInWithRedirectAsync`: returns the promise of
the underlying redirect call unchanged, adding no settlement of its own. -/
def signInWithRedirectAsync (ext : Option (Except AuthError Unit)) :
    Option (Except AuthError Unit) :=
  ext

/-- Embeds `ProdAuthServiceImpl.getRedirectResultAsync`: delegates to
`angularFireAuth.getRedirectResult()`. -/
def getRedirectResultAsync (fa : AngularFireAuth) :
    Except AuthError UserCredential :=
  fa.getRedirectResult

/-- Embeds `ProdAuthServiceImpl.signOutAsync`: delegates to
`angularFireAuth.signOut()`. -/
def signOutAsync (fa : AngularFireAuth) : Except AuthError Unit :=
  fa.signOut

end ProdAuthServiceImpl

namespace AuthService

/-- The three strategy variants; the spec names them Disabled, Emulated and
Live, implemented by `NullAuthServiceImpl`, `DevAuthServiceImpl` and
`ProdAuthServiceImpl`. -/
inductive StrategyKind where
  | disabled : StrategyKind
  | emulated : StrategyKind
  | live : StrategyKind
deriving DecidableEq

/-- Embeds `AuthService.firebaseAuthIsEnabled`: reads
`AppConstants.FIREBASE_AUTH_ENABLED`. -/
def firebaseAuthIsEnabled (c : AppConstants) : Bool :=
  c.FIREBASE_AUTH_ENABLED

/-- Embeds `AuthService.firebaseEmulatorIsEnabled`:
`firebaseAuthIsEnabled && AppConstants.EMULATOR_MODE`. -/
def firebaseEmulatorIsEnabled (c : AppConstants) : Bool :=
  firebaseAuthIsEnabled c && c.EMULATOR_MODE

/-- The `FirebaseOptions` object built by `AuthService.firebaseConfig`. -/
structure FirebaseOptions where
  apiKey : String
  authDomain : String
  projectId : String
  storageBucket : String
  messagingSenderId : String
  appId : String
deriving DecidableEq

/-- Embeds `AuthService.firebaseConfig`: `undefined` (`none`) when auth is not
enabled, otherwise the options object built from the six identity-provider
constants. -/
def firebaseConfig (c : AppConstants) : Option FirebaseOptions :=
  if !(firebaseAuthIsEnabled c) then none else
    some
      { apiKey := c.FIREBASE_CONFIG_API_KEY
        authDomain := c.FIREBASE_CONFIG_AUTH_DOMAIN
        projectId := c.FIREBASE_CONFIG_PROJECT_ID
        storageBucket := c.FIREBASE_CONFIG_STORAGE_BUCKET
        messagingSenderId := c.FIREBASE_CONFIG_MESSAGING_SENDER_ID
        appId := c.FIREBASE_CONFIG_APP_ID }

/-- Embeds `AuthService.firebaseEmulatorConfig`: the pair `['localhost', 9099]`
when the emulator is enabled, `undefined` (`none`) otherwise. -/
def firebaseEmulatorConfig (c : AppConstants) : Option (String × Nat) :=
  if firebaseEmulatorIsEnabled c then some ("localhost", 9099) else none

/-- Modelled from the spec: whether the dependency-injection container
passes a non-null `AngularFireAuth` to the `AuthService` constructor (the
parameter is `@Optional()`). The module wiring that provides it is not
under `src/`; per the spec, the Disabled variant is "used when no
identity-provider integration is configured", so the collaborator is
provided exactly when the auth-enabled flag is set. -/
def angularFireAuthIsProvided (c : AppConstants) : Bool :=
  c.FIREBASE_AUTH_ENABLED

/-- The strategy selection performed by the `AuthService` constructor:
`NullAuthServiceImpl` when `angularFireAuth` is null, otherwise
`DevAuthServiceImpl` when `firebaseEmulatorIsEnabled`, otherwise
`ProdAuthServiceImpl`. -/
def selectStrategy (c : AppConstants) : StrategyKind :=
  if !(angularFireAuthIsProvided c) then .disabled
  else if firebaseEmulatorIsEnabled c then .emulated
  else .live

/-- Embeds `AuthService.handleRedirectResultAsync`. Here `getRedirectResult` is the
settled outcome of the active strategy `getRedirectResultAsync()` call and
`beginSessionAsync` the backend begin-session operation; the trace records
the backend calls made. -/
def handleRedirectResultAsync
    (getRedirectResult : Except AuthError UserCredential)
    (beginSessionAsync : String → Except AuthError Unit) :
    Except AuthError Unit × List Event :=
  match getRedirectResult with
  | .error e => (.error e, [])
  | .ok creds =>
      match creds.user with
      | some u =>
          match u.getIdToken with
          | .ok idToken => (beginSessionAsync idToken, [.beginSession idToken])
          | .error e => (.error e, [])
      | none => (.error .nullValue, [])

/-- Embeds `Promise.all` on a pair, both promises already launched: succeeds when
both succeed; otherwise settles with the rejection that occurs first in
time. When both reject, `firstFails` tells which rejection happened first
(timing is external to the code). -/
def promiseAll2 (a b : Except AuthError Unit) (firstFails : Bool) :
    Except AuthError Unit :=
  match a, b with
  | .ok _, .ok _ => .ok ()
  | .error ea, .ok _ => .error ea
  | .ok _, .error eb => .error eb
  | .error ea, .error eb => if firstFails then .error ea else .error eb

/-- Embeds `AuthService.signOutAsync`: launches the strategy sign-out and the
backend end-session together and awaits both with `Promise.all`.
`strategySignOut` and `endSession` are the settled outcomes of the two
calls; `strategyRejectsFirst` resolves the external timing when both
reject. The trace records both launches, in the order they appear in the
code. -/
def signOutAsync (strategySignOut endSession : Except AuthError Unit)
    (strategyRejectsFirst : Bool) : Except AuthError Unit × List Event :=
  (promiseAll2 strategySignOut endSession strategyRejectsFirst,
   [.strategySignOut, .endSession])

end AuthService

/-! Concrete collaborator instances used by the witnesses. -/

/-- A concrete configuration with both flags set. -/
def testConstants : AppConstants :=
  { FIREBASE_AUTH_ENABLED := true
    EMULATOR_MODE := true
    FIREBASE_CONFIG_API_KEY := "key"
    FIREBASE_CONFIG_AUTH_DOMAIN := "domain"
    FIREBASE_CONFIG_PROJECT_ID := "project"
    FIREBASE_CONFIG_STORAGE_BUCKET := "bucket"
    FIREBASE_CONFIG_MESSAGING_SENDER_ID := "sender"
    FIREBASE_CONFIG_APP_ID := "app" }

/-- A concrete stand-in for the md5 hash from hash-wasm. -/
def testMd5 (s : String) : String :=
  String.append s "-md5"

/-- A concrete backend begin-session operation that succeeds. -/
def testBackendBegin : String → Except AuthError Unit :=
  fun _ => .ok ()

/-- A concrete AngularFireAuth whose email sign-in reports the identity as
not found and whose account creation succeeds. -/
def notFoundFa : AngularFireAuth :=
  { signInWithEmailAndPassword := fun _ _ =>
      .error (.firebaseError "auth/user-not-found")
    createUserWithEmailAndPassword := fun _ _ => .ok { user := none }
    getRedirectResult := .error authUnavailable
    signOut := .ok () }

/-- A concrete AngularFireAuth whose email sign-in succeeds directly. -/
def okFa : AngularFireAuth :=
  { signInWithEmailAndPassword := fun _ _ => .ok { user := none }
    createUserWithEmailAndPassword := fun _ _ => .ok { user := none }
    getRedirectResult := .error authUnavailable
    signOut := .ok () }

/-! Theorems, one per claim. -/

/-- C1: strategy selection at AuthService construction is determined solely
by the two configuration flags: for every configuration, a false
auth-enabled flag yields the Disabled (Null) strategy regardless of the
emulator flag; auth enabled with emulator enabled yields the Emulated (Dev)
strategy; auth enabled with emulator disabled yields the Live (Prod)
strategy. -/
theorem strategySelectionByFlags (c : AppConstants) :
    (c.FIREBASE_AUTH_ENABLED = false →
      AuthService.selectStrategy c = .disabled) ∧
    (c.FIREBASE_AUTH_ENABLED = true → c.EMULATOR_MODE = true →
      AuthService.selectStrategy c = .emulated) ∧
    (c.FIREBASE_AUTH_ENABLED = true → c.EMULATOR_MODE = false →
      AuthService.selectStrategy c = .live) := by
  obtain ⟨a, e, k1, k2, k3, k4, k5, k6⟩ := c
  cases a <;> cases e <;>
    simp [AuthService.selectStrategy, AuthService.angularFireAuthIsProvided,
      AuthService.firebaseEmulatorIsEnabled, AuthService.firebaseAuthIsEnabled]

/-- Witness for C1 at a configuration with both flags set. -/
theorem strategySelectionByFlags_witness :
    AuthService.selectStrategy testConstants = .emulated :=
  (strategySelectionByFlags testConstants).2.1 rfl rfl

/-- C2: whenever the redirect result of the active strategy carries an
authenticated user whose identity token resolves to `t`, the backend
begin-session operation is called with exactly `t` (the call trace is the
single event `beginSession t`) and `handleRedirectResultAsync` returns the
outcome of that call unchanged. -/
theorem handleRedirectForwardsToken
    (beginSessionAsync : String → Except AuthError Unit)
    (creds : UserCredential) (u : FirebaseUser) (t : String)
    (hu : creds.user = some u) (ht : u.getIdToken = .ok t) :
    AuthService.handleRedirectResultAsync (.ok creds) beginSessionAsync
      = (beginSessionAsync t, [.beginSession t]) := by
  simp [AuthService.handleRedirectResultAsync, hu, ht]

/-- Witness for C2 with the token string "T" and a succeeding backend. -/
theorem handleRedirectForwardsToken_witness :
    AuthService.handleRedirectResultAsync
        (.ok { user := some { getIdToken := .ok "T" } }) testBackendBegin
      = (testBackendBegin "T", [.beginSession "T"]) :=
  handleRedirectForwardsToken testBackendBegin
    { user := some { getIdToken := .ok "T" } }
    { getIdToken := .ok "T" } "T" rfl rfl

/-- C3: whenever the redirect result carries no user,
`handleRedirectResultAsync` rejects with the NoCredential kind — the
literal `null` rejection value `AuthError.nullValue`, which attaches no
underlying cause — and the backend begin-session operation is never called
(the trace holds no beginSession event). -/
theorem handleRedirectNoUser
    (beginSessionAsync : String → Except AuthError Unit)
    (creds : UserCredential) (hu : creds.user = none) :
    AuthService.handleRedirectResultAsync (.ok creds) beginSessionAsync
        = (.error .nullValue, []) ∧
    (AuthService.handleRedirectResultAsync (.ok creds)
        beginSessionAsync).snd.countP Event.isBeginSession = 0 := by
  simp [AuthService.handleRedirectResultAsync, hu]

/-- Witness for C3 with a concrete credential that has a null user. -/
theorem handleRedirectNoUser_witness :
    AuthService.handleRedirectResultAsync (.ok { user := none })
        testBackendBegin
      = (.error .nullValue, []) ∧
    (AuthService.handleRedirectResultAsync (.ok { user := none })
        testBackendBegin).snd.countP Event.isBeginSession = 0 :=
  handleRedirectNoUser testBackendBegin { user := none } rfl

/-- C4: every `signOutAsync` call launches the strategy sign-out and the
backend end-session exactly once each (the trace counts one event of each),
both are awaited to completion, the combined outcome succeeds exactly when
both outcomes succeed, and otherwise it is the rejection that occurred
first: the sole failing outcome when only one fails, and the
first-in-time rejection when both fail. -/
theorem signOutBothOnceFirstFailure
    (a b : Except AuthError Unit) (first : Bool) :
    ((AuthService.signOutAsync a b first).snd.count .strategySignOut = 1 ∧
     (AuthService.signOutAsync a b first).snd.count .endSession = 1) ∧
    ((AuthService.signOutAsync a b first).fst = .ok () ↔
      a = .ok () ∧ b = .ok ()) ∧
    (∀ ea, a = .error ea → b = .ok () →
      (AuthService.signOutAsync a b first).fst = .error ea) ∧
    (∀ eb, a = .ok () → b = .error eb →
      (AuthService.signOutAsync a b first).fst = .error eb) ∧
    (∀ ea eb, a = .error ea → b = .error eb →
      (AuthService.signOutAsync a b first).fst
        = .error (if first then ea else eb)) := by
  obtain ⟨⟩ | a := a <;> obtain ⟨⟩ | b := b <;> cases first <;>
    simp [AuthService.signOutAsync, AuthService.promiseAll2]

/-- Witness for C4: strategy sign-out rejects while end-session succeeds,
so the combined call rejects with the strategy failure. -/
theorem signOutBothOnceFirstFailure_witness :
    (AuthService.signOutAsync (.error authUnavailable) (.ok ()) true).fst
      = .error authUnavailable :=
  (signOutBothOnceFirstFailure (.error authUnavailable) (.ok ())
    true).2.2.1 authUnavailable rfl rfl

/-- C5: in the Emulated variant, when the provider email sign-in rejects
with the code auth/user-not-found, exactly one account-creation call with
the same email and the same derived password follows and the whole call
settles with that creation call outcome (so a created credential is
returned); when the sign-in rejects with any other error, that error is
re-thrown unchanged and no account-creation call is made. -/
theorem devUserNotFoundFallback (md5 : String → String)
    (fa : AngularFireAuth) (email : String) (e : AuthError)
    (hs : fa.signInWithEmailAndPassword email (md5 email) = .error e) :
    (e.code = some "auth/user-not-found" →
      DevAuthServiceImpl.getRedirectResultAsync md5 fa email
        = (fa.createUserWithEmailAndPassword email (md5 email),
           [.promptForEmail,
            .signInWithEmailAndPassword email (md5 email),
            .createUserWithEmailAndPassword email (md5 email)]) ∧
      (DevAuthServiceImpl.getRedirectResultAsync md5 fa
          email).snd.countP Event.isCreateUser = 1) ∧
    (e.code ≠ some "auth/user-not-found" →
      DevAuthServiceImpl.getRedirectResultAsync md5 fa email
        = (.error e,
           [.promptForEmail,
            .signInWithEmailAndPassword email (md5 email)]) ∧
      (DevAuthServiceImpl.getRedirectResultAsync md5 fa
          email).snd.countP Event.isCreateUser = 0) := by
  constructor <;> intro hc <;>
    simp [DevAuthServiceImpl.getRedirectResultAsync, hs, hc,
      Event.isCreateUser]

/-- Witness for C5: a provider that reports auth/user-not-found on sign-in
and then accepts the account creation. -/
theorem devUserNotFoundFallback_witness :
    DevAuthServiceImpl.getRedirectResultAsync testMd5 notFoundFa "a@b.com"
      = (notFoundFa.createUserWithEmailAndPassword "a@b.com"
           (testMd5 "a@b.com"),
         [.promptForEmail,
          .signInWithEmailAndPassword "a@b.com" (testMd5 "a@b.com"),
          .createUserWithEmailAndPassword "a@b.com" (testMd5 "a@b.com")]) ∧
    (DevAuthServiceImpl.getRedirectResultAsync testMd5 notFoundFa
        "a@b.com").snd.countP Event.isCreateUser = 1 :=
  (devUserNotFoundFallback testMd5 notFoundFa "a@b.com"
    (.firebaseError "auth/user-not-found") rfl).1 rfl

/-- C6: in the Disabled (Null) variant, all three operations settle as
rejections carrying the AuthUnavailable error (the async method bodies
throw it, so the promises reject rather than throwing synchronously). -/
theorem nullImplAllReject :
    NullAuthServiceImpl.signInWithRedirectAsync
        = .error authUnavailable ∧
    NullAuthServiceImpl.getRedirectResultAsync
        = .error authUnavailable ∧
    NullAuthServiceImpl.signOutAsync = .error authUnavailable :=
  ⟨rfl, rfl, rfl⟩

/-- Helper for C7: every password argument in an Emulated-variant redirect
run equals the md5 hash of the entered email. -/
theorem devPasswordArgsAreHash (md5 : String → String)
    (fa : AngularFireAuth) (email : String) :
    ∀ p ∈ (DevAuthServiceImpl.getRedirectResultAsync md5 fa
        email).snd.filterMap Event.passwordArg, p = md5 email := by
  unfold DevAuthServiceImpl.getRedirectResultAsync
  cases hs : fa.signInWithEmailAndPassword email (md5 email) with
  | ok creds => simp [hs, Event.passwordArg]
  | error err =>
      by_cases hc : err.code = some "auth/user-not-found" <;>
        simp [hs, hc, Event.passwordArg]

/-- C7: in the Emulated variant the derived password is a deterministic
function of the entered email alone: in every run the provider only ever
receives the password `md5 email`, the run makes at least one such
credential call, and two runs against any two provider instances with the
same email use the same passwords. -/
theorem devPasswordDeterministic (md5 : String → String)
    (fa fb : AngularFireAuth) (email : String) :
    (DevAuthServiceImpl.getRedirectResultAsync md5 fa
        email).snd.filterMap Event.passwordArg ≠ [] ∧
    (∀ p ∈ (DevAuthServiceImpl.getRedirectResultAsync md5 fa
        email).snd.filterMap Event.passwordArg, p = md5 email) ∧
    (∀ p ∈ (DevAuthServiceImpl.getRedirectResultAsync md5 fa
        email).snd.filterMap Event.passwordArg,
     ∀ q ∈ (DevAuthServiceImpl.getRedirectResultAsync md5 fb
        email).snd.filterMap Event.passwordArg, p = q) := by
  refine ⟨?_, devPasswordArgsAreHash md5 fa email, ?_⟩
  · unfold DevAuthServiceImpl.getRedirectResultAsync
    cases hs : fa.signInWithEmailAndPassword email (md5 email) with
    | ok creds => simp [hs, Event.passwordArg]
    | error err =>
        by_cases hc : err.code = some "auth/user-not-found" <;>
          simp [hs, hc, Event.passwordArg]
  · intro p hp q hq
    rw [devPasswordArgsAreHash md5 fa email p hp,
      devPasswordArgsAreHash md5 fb email q hq]

/-- Witness for C7: both the direct-success run and the created-account run
on the email a@b.com only use the hash of that email as password. -/
theorem devPasswordDeterministic_witness :
    (String.append "a@b.com" "-md5") = testMd5 "a@b.com" :=
  (devPasswordDeterministic testMd5 notFoundFa okFa "a@b.com").2.1
    (String.append "a@b.com" "-md5")
    (by simp [DevAuthServiceImpl.getRedirectResultAsync, notFoundFa,
      testMd5, AuthError.code, Event.passwordArg])

/-- C8: the Live variant beginRedirectSignIn returns the promise of the
underlying provider redirect call unchanged, and with that call modelled
per the spec as never settling, the returned operation neither resolves nor
rejects. -/
theorem prodSignInNeverSettles :
    ProdAuthServiceImpl.signInWithRedirectAsync
        ProdAuthServiceImpl.angularFireSignInWithRedirect = none ∧
    (∀ ext, ProdAuthServiceImpl.signInWithRedirectAsync ext = ext) :=
  ⟨rfl, fun _ => rfl⟩

/-- C9: for every configuration, the pure accessor firebaseEmulatorConfig
yields exactly the fixed emulator address localhost, 9099 when emulator
mode is active and `undefined` (`none`) otherwise. -/
theorem emulatorConfigValue (c : AppConstants) :
    (AuthService.firebaseEmulatorIsEnabled c = true →
      AuthService.firebaseEmulatorConfig c = some ("localhost", 9099)) ∧
    (AuthService.firebaseEmulatorIsEnabled c = false →
      AuthService.firebaseEmulatorConfig c = none) := by
  constructor <;> intro h <;> simp [AuthService.firebaseEmulatorConfig, h]

/-- Witness for C9 at a configuration with both flags set. -/
theorem emulatorConfigValue_witness :
    AuthService.firebaseEmulatorConfig testConstants
      = some ("localhost", 9099) :=
  (emulatorConfigValue testConstants).1 rfl

/-- C10: for every configuration, the accessor firebaseConfig yields
`undefined` (`none`) when the auth-enabled flag is false, and otherwise the
options object built exactly from the six identity-provider constants. -/
theorem firebaseConfigValue (c : AppConstants) :
    (c.FIREBASE_AUTH_ENABLED = false →
      AuthService.firebaseConfig c = none) ∧
    (c.FIREBASE_AUTH_ENABLED = true →
      AuthService.firebaseConfig c = some
        { apiKey := c.FIREBASE_CONFIG_API_KEY
          authDomain := c.FIREBASE_CONFIG_AUTH_DOMAIN
          projectId := c.FIREBASE_CONFIG_PROJECT_ID
          storageBucket := c.FIREBASE_CONFIG_STORAGE_BUCKET
          messagingSenderId := c.FIREBASE_CONFIG_MESSAGING_SENDER_ID
          appId := c.FIREBASE_CONFIG_APP_ID }) := by
  constructor <;> intro h <;>
    simp [AuthService.firebaseConfig, AuthService.firebaseAuthIsEnabled, h]

/-- Witness for C10 at a configuration with auth enabled. -/
theorem firebaseConfigValue_witness :
    AuthService.firebaseConfig testConstants = some
        { apiKey := "key", authDomain := "domain", projectId := "project"
          storageBucket := "bucket", messagingSenderId := "sender"
          appId := "app" } :=
  (firebaseConfigValue testConstants).2 rfl

end OppiaAuth
